import Mathlib

/-!
Verification development for the neighborhood subject-property analyzer
(`src/analyzers/subject_property_analyzer.py` and `src/constants.py`).

The analyzer is shallowly embedded here.  A pandas cell is modelled by
`Cell` (a numeric value, the NaN missing marker, or a raw string); a
pandas numeric series with missing entries is `List (Option ℚ)`; a
DataFrame is a list of named columns, each a `List Cell`, with rows
aligned positionally (pandas index alignment on a default RangeIndex).
`pd.to_numeric(x, errors := coerce)` is `toNumericCell` elementwise, with
string parsing modelled for plain decimal literals (optional sign,
digits, optional fractional part), which covers every value the
analysis deals in.  Python `KeyError` on a missing header mapping or a
missing column, the `TypeError` raised when a median float is compared
with or formatted from a non-numeric subject price, and the
`ValueError` raised by `min` over an empty sequence, are modelled with
`Except AErr`.
-/

inductive Cell where
  | num (q : ℚ)
  | nan
  | str (s : String)
deriving DecidableEq, Repr

inductive AErr where
  | keyError (k : String)
  | typeError
  | valueError
deriving DecidableEq, Repr

/-- Digits of a numeral read in base 10. -/
def digitsVal (cs : List Char) : ℕ :=
  cs.foldl (fun a c => a * 10 + (c.toNat - 48)) 0

/-- Parsing of a plain decimal literal, the fragment of
`pd.to_numeric` string parsing exercised by the analyzer: an optional
sign, then digits with at most one decimal point and at least one
digit overall.  The value is `intPart.fracPart`, negated under a
leading minus sign; anything else coerces to missing. -/
def parseDec (s : String) : Option ℚ :=
  let (neg, body) : Bool × List Char :=
    match s.data with
    | '-' :: r => (true, r)
    | '+' :: r => (false, r)
    | r => (false, r)
  let signed : ℚ → ℚ := fun q => if neg then -q else q
  match body.splitOn '.' with
  | [ip] =>
      if ip ≠ [] ∧ ip.all Char.isDigit then some (signed (digitsVal ip)) else none
  | [ip, fp] =>
      if (ip ≠ [] ∨ fp ≠ []) ∧ ip.all Char.isDigit ∧ fp.all Char.isDigit then
        some (signed (mkRat (digitsVal ip * 10 ^ fp.length + digitsVal fp) (10 ^ fp.length)))
      else none
  | _ => none

/-- Elementwise `pd.to_numeric(·, errors := coerce)`: numbers pass
through, NaN stays missing, strings are parsed and parse failures
coerce to missing. -/
def toNumericCell (c : Cell) : Option ℚ :=
  match c with
  | .num q => some q
  | .nan => none
  | .str s => parseDec s

/-- A pandas column holding any string has dtype `object`. -/
def isObjectDtype (col : List Cell) : Bool :=
  col.any fun c => match c with | .str _ => true | _ => false

/-- Cleaning of one cell of an object-dtype price column:
`astype(str).str.replace($, ).str.replace(,, )` followed by
`pd.to_numeric(·, errors := coerce)`.  A numeric cell's string form
parses back to the same number; NaN prints as a non-numeric token and
stays missing. -/
def cleanObjectCell (c : Cell) : Option ℚ :=
  match c with
  | .str s => parseDec (String.mk (s.data.filter fun ch => ch ≠ '$' ∧ ch ≠ ','))
  | .num q => some q
  | .nan => none

/-- Model of `process_data` applied to the resolved price column: the derived
`price_clean` numeric series. -/
def priceClean (col : List Cell) : List (Option ℚ) :=
  if isObjectDtype col then col.map cleanObjectCell
  else col.map toNumericCell

/-- Median of an already sorted list of valid values, pandas
`Series.median` semantics: missing when empty, the middle element for
an odd length, the mean of the two middle elements for an even
length. -/
def medianOfSorted (v : List ℚ) : Option ℚ :=
  if v.length = 0 then none
  else if v.length % 2 = 1 then some (v.getD (v.length / 2) 0)
  else some ((v.getD (v.length / 2 - 1) 0 + v.getD (v.length / 2) 0) / 2)

/-- Pandas `Series.median`: NaN entries are skipped, then the order-statistic
median of the remaining values is taken; an empty or all-missing
series yields NaN. -/
def seriesMedian (xs : List (Option ℚ)) : Option ℚ :=
  medianOfSorted ((xs.filterMap id).insertionSort (· ≤ ·))

/-- The subject property record.  `beds`, `baths`, `sqft` are numeric
per the input contract; `price` is kept as the raw cell the caller
supplied, because the code never normalizes it. -/
structure Subject where
  beds : ℚ
  baths : ℚ
  sqft : ℚ
  price : Cell
deriving DecidableEq, Repr

/-- Pandas `pd.to_numeric(col) == x` elementwise: NaN (and any failed
coercion) compares unequal. -/
def cellEq (c : Cell) (x : ℚ) : Bool :=
  match toNumericCell c with
  | some q => decide (q = x)
  | none => false

/-- Pandas `abs(pd.to_numeric(col) - x) <= tol` elementwise: NaN
propagates and the comparison with NaN is false. -/
def cellNear (c : Cell) (x tol : ℚ) : Bool :=
  match toNumericCell c with
  | some q => decide (|q - x| ≤ tol)
  | none => false

/-- One row of the exact-match mask:
`to_numeric(beds) == subject.beds & to_numeric(baths) == subject.baths
& abs(to_numeric(sqft) - subject.sqft) <= SQFT_TOLERANCE` with
`SQFT_TOLERANCE = 5`. -/
def exactRowPred (b ba sq : Cell) (s : Subject) : Bool :=
  cellEq b s.beds && cellEq ba s.baths && cellNear sq s.sqft 5

/-- One row of the similar-match mask: `to_numeric(beds) == subject.beds`. -/
def similarRowPred (b : Cell) (s : Subject) : Bool :=
  cellEq b s.beds

/-- Positional alignment of three columns, as pandas aligns series of
equal length on a shared RangeIndex. -/
def zipWith3C (f : Cell → Cell → Cell → Bool) : List Cell → List Cell → List Cell → List Bool
  | a :: as, b :: bs, c :: cs => f a b c :: zipWith3C f as bs cs
  | _, _, _ => []

/-- The boolean exact-match mask over the dataset. -/
def exactMask (beds baths sqft : List Cell) (s : Subject) : List Bool :=
  zipWith3C (fun b ba sq => exactRowPred b ba sq s) beds baths sqft

/-- The boolean similar-match mask over the dataset. -/
def similarMask (beds : List Cell) (s : Subject) : List Bool :=
  beds.map fun b => similarRowPred b s

/-- Row selection `df[mask]` restricted to one column: keep the entries whose mask
bit is set. -/
def applyMask (xs : List α) (m : List Bool) : List α :=
  (xs.zip m).filterMap fun p => if p.2 then some p.1 else none

/-- Core of `get_neighborhood_median` on the derived price series. -/
def neighborhoodMedianCore (price : List (Option ℚ)) : Option ℚ :=
  seriesMedian price

/-- Core of `get_exact_models_median` after column resolution:
`matches[price_clean].median() if not matches.empty else np.nan`. -/
def exactMedianCore (price : List (Option ℚ)) (beds baths sqft : List Cell)
    (s : Subject) : Option ℚ :=
  let ms := applyMask price (exactMask beds baths sqft s)
  if ms.isEmpty then none else seriesMedian ms

/-- Core of `get_similar_models_median` after column resolution. -/
def similarMedianCore (price : List (Option ℚ)) (beds : List Cell)
    (s : Subject) : Option ℚ :=
  let ms := applyMask price (similarMask beds s)
  if ms.isEmpty then none else seriesMedian ms

/-- The value set returned by `get_comparison_results`. -/
structure ComparisonResults where
  neighborhood_median : Option ℚ
  exact_models_median : Option ℚ
  similar_models_median : Option ℚ
  subject_price : Cell
deriving DecidableEq, Repr

/-- Python `comp > subject_price` for a float `comp`: ordinary
comparison against a number, false against NaN, `TypeError` against a
string. -/
def pyGT (c : ℚ) (p : Cell) : Except AErr Bool :=
  match p with
  | .num q => .ok (decide (c > q))
  | .nan => .ok false
  | .str _ => .error .typeError

/-- The count `sum(1 for comp in valid_comps if comp > subject_price)`. -/
def countHigher (valid : List ℚ) (p : Cell) : Except AErr ℕ :=
  match valid with
  | [] => .ok 0
  | c :: rest => do
      let b ← pyGT c p
      let r ← countHigher rest p
      pure (if b then r + 1 else r)

/-- The decision rule of `get_decision`, applied to an already
computed `ComparisonResults`: drop the NaN medians, return
`INVESTIGATE` when none survive, otherwise count the survivors
strictly above the subject price and apply
`BUY if higher >= n else PASS if higher <= 1 else INVESTIGATE`. -/
def decisionFrom (r : ComparisonResults) : Except AErr String :=
  let valid :=
    [r.neighborhood_median, r.exact_models_median, r.similar_models_median].filterMap id
  if valid.isEmpty then .ok "INVESTIGATE"
  else do
    let higher ← countHigher valid r.subject_price
    if higher ≥ valid.length then pure "BUY"
    else if higher ≤ 1 then pure "PASS"
    else pure "INVESTIGATE"

/-- The analyzer's construction-time state: the dataset as named
columns, the resolved header mapping, and the subject record. -/
structure AnalyzerInput where
  df : List (String × List Cell)
  headers : List (String × String)
  subject : Subject

/-- Python dict lookup `headers[k]`: `KeyError k` when absent. -/
def headerKey (m : List (String × String)) (k : String) : Except AErr String :=
  match (m.find? fun p => p.1 = k).map (·.2) with
  | some v => .ok v
  | none => .error (.keyError k)

/-- Pandas column access `df[c]`: `KeyError c` when the column is
absent. -/
def dfColumn (df : List (String × List Cell)) (c : String) : Except AErr (List Cell) :=
  match (df.find? fun p => p.1 = c).map (·.2) with
  | some col => .ok col
  | none => .error (.keyError c)

/-- Method `process_data`, run by the constructor: resolve the price column
through `headers[price]` and derive the `price_clean` series. -/
def process_data (a : AnalyzerInput) : Except AErr (List (Option ℚ)) := do
  let priceCol ← headerKey a.headers "price"
  let col ← dfColumn a.df priceCol
  pure (priceClean col)

/-- Method `get_neighborhood_median`. -/
def get_neighborhood_median (a : AnalyzerInput) : Except AErr (Option ℚ) := do
  let price ← process_data a
  pure (neighborhoodMedianCore price)

/-- Method `get_exact_models_median`: the three header lookups happen first,
in source order, then the three column accesses needed by the mask. -/
def get_exact_models_median (a : AnalyzerInput) : Except AErr (Option ℚ) := do
  let price ← process_data a
  let bedsCol ← headerKey a.headers "beds"
  let bathsCol ← headerKey a.headers "baths"
  let sqftCol ← headerKey a.headers "sqft"
  let beds ← dfColumn a.df bedsCol
  let baths ← dfColumn a.df bathsCol
  let sqft ← dfColumn a.df sqftCol
  pure (exactMedianCore price beds baths sqft a.subject)

/-- Method `get_similar_models_median`. -/
def get_similar_models_median (a : AnalyzerInput) : Except AErr (Option ℚ) := do
  let price ← process_data a
  let bedsCol ← headerKey a.headers "beds"
  let beds ← dfColumn a.df bedsCol
  pure (similarMedianCore price beds a.subject)

/-- Method `get_comparison_results`: the three medians in source order, and
the subject price taken verbatim from the subject record. -/
def get_comparison_results (a : AnalyzerInput) : Except AErr ComparisonResults := do
  let n ← get_neighborhood_median a
  let e ← get_exact_models_median a
  let s ← get_similar_models_median a
  pure ⟨n, e, s, a.subject.price⟩

/-- Method `get_decision`. -/
def get_decision (a : AnalyzerInput) : Except AErr String := do
  let r ← get_comparison_results a
  decisionFrom r

/-- One dashed vertical reference line of the comparison chart. -/
structure VLine where
  label : String
  x : ℚ
  line_color : String
deriving DecidableEq, Repr

/-- The renderable chart description assembled by
`plot_comparison_chart`: the histogram series with its fixed bin
count, and the emitted reference lines.  The figure carries no
explicit axis range. -/
structure ChartSpec where
  histogram_x : List (Option ℚ)
  nbinsx : ℕ
  vlines : List VLine
deriving DecidableEq, Repr

/-- The reference value of one comparison entry as the chart code
sees it.  A NaN is skipped by the `pd.isna` guards; a number is
plotted; a string subject price is not NaN, so it reaches `min` /
string formatting and raises `TypeError`. -/
def cellRefVal (c : Cell) : Except AErr (Option ℚ) :=
  match c with
  | .num q => .ok (some q)
  | .nan => .ok none
  | .str _ => .error .typeError

/-- Method `plot_comparison_chart` on an already computed result set: build
the four comparison entries in source order with their fixed colors,
drop the missing ones, fail with `ValueError` when `min`/`max` get an
empty sequence, and emit a dashed line per surviving entry over the
30-bin histogram of `price_clean`. -/
def plot_comparison_chart (price : List (Option ℚ)) (r : ComparisonResults) :
    Except AErr ChartSpec := do
  let subv ← cellRefVal r.subject_price
  let refs : List (String × Option ℚ × String) :=
    [("Subject Price", subv, "#FF4B4B"),
     ("Neighborhood Median", r.neighborhood_median, "#00CED1"),
     ("Similar Models Median", r.similar_models_median, "#50C878"),
     ("Exact Models Median", r.exact_models_median, "#BA55D3")]
  let present := refs.filterMap fun e => e.2.1.map fun q => VLine.mk e.1 q e.2.2
  if present.isEmpty then .error .valueError
  else pure { histogram_x := price, nbinsx := 30, vlines := present }

/-- Smallest element of a list, the model of the x-axis autorange
lower bound a renderer derives from the drawn elements. -/
def listMin : List ℚ → Option ℚ
  | [] => none
  | x :: xs =>
      match listMin xs with
      | none => some x
      | some m => some (min x m)

/-- Largest element of a list. -/
def listMax : List ℚ → Option ℚ
  | [] => none
  | x :: xs =>
      match listMax xs with
      | none => some x
      | some m => some (max x m)

/-- Every x-coordinate the chart draws: the valid histogram entries
and the reference lines. -/
def ChartSpec.plottedXs (c : ChartSpec) : List ℚ :=
  c.histogram_x.filterMap id ++ c.vlines.map (·.x)

/-- The figure sets no explicit x-range, so the plotted range is the
renderer's autorange over the drawn elements: its lower bound. -/
def ChartSpec.plottedLo (c : ChartSpec) : Option ℚ :=
  listMin c.plottedXs

/-- Autorange upper bound over the drawn elements. -/
def ChartSpec.plottedHi (c : ChartSpec) : Option ℚ :=
  listMax c.plottedXs

/-- The dataset of the spec's five-sale scenario: prices 300000 to
340000 in steps of 10000, bed/bath/sqft values that match no tier for
the subject (3 beds, 2 baths, 1500 sqft, price 305000). -/
def scenarioInput : AnalyzerInput :=
  { df := [("Sale Amount", [.num 300000, .num 310000, .num 320000, .num 330000, .num 340000]),
           ("Beds", [.num 0, .num 0, .num 0, .num 0, .num 0]),
           ("Baths", [.num 0, .num 0, .num 0, .num 0, .num 0]),
           ("SqFt", [.num 0, .num 0, .num 0, .num 0, .num 0])],
    headers := [("price", "Sale Amount"), ("beds", "Beds"),
                ("baths", "Baths"), ("sqft", "SqFt")],
    subject := ⟨3, 2, 1500, .num 305000⟩ }

/-- A dataset whose single price is unparseable and whose rows match
neither tier, so all three medians are missing. -/
def allMissingInput : AnalyzerInput :=
  { df := [("p", [.str "N/A"]), ("b", [.num 0]), ("ba", [.num 0]), ("sq", [.num 0])],
    headers := [("price", "p"), ("beds", "b"), ("baths", "ba"), ("sqft", "sq")],
    subject := ⟨3, 2, 1500, .num 100⟩ }

/-- A dataset with a text price column and a raw string subject
price. -/
def rawSubjectInput : AnalyzerInput :=
  { df := [("p", [.str "$2"]), ("b", [.num 0]), ("ba", [.num 0]), ("sq", [.num 0])],
    headers := [("price", "p"), ("beds", "b"), ("baths", "ba"), ("sqft", "sq")],
    subject := ⟨3, 2, 1500, .str "$5"⟩ }

/-- A field mapping carrying only the required `price` entry. -/
def priceOnlyInput : AnalyzerInput :=
  { df := [("p", [.num 1])],
    headers := [("price", "p")],
    subject := ⟨3, 2, 1500, .num 1⟩ }

lemma exceptBind_ok (x : α) (f : α → Except AErr β) :
    (Except.ok x >>= f) = f x := rfl

lemma exceptBind_err (e : AErr) (f : α → Except AErr β) :
    ((Except.error e : Except AErr α) >>= f) = .error e := rfl

lemma headerKey_error {m : List (String × String)} {k : String} {e : AErr}
    (h : headerKey m k = .error e) : e = .keyError k := by
  unfold headerKey at h
  split at h
  · exact absurd h (by simp)
  · exact (Except.error.inj h).symm

lemma countHigher_num (valid : List ℚ) (q : ℚ) :
    countHigher valid (.num q) = .ok (valid.countP fun c => decide (c > q)) := by
  induction valid with
  | nil => rfl
  | cons c rest ih =>
      simp only [countHigher, pyGT, exceptBind_ok, ih, List.countP_cons]
      by_cases h : c > q <;> simp [h, Nat.add_comm] <;> rfl

lemma listMin_spans {l : List ℚ} {v : ℚ} (hv : v ∈ l) :
    ∃ m, listMin l = some m ∧ m ≤ v := by
  induction l with
  | nil => cases hv
  | cons x xs ih =>
      rcases List.mem_cons.mp hv with rfl | hmem
      · rcases hx : listMin xs with _ | m
        · exact ⟨v, by simp [listMin, hx], le_refl v⟩
        · exact ⟨min v m, by simp [listMin, hx], min_le_left v m⟩
      · obtain ⟨m, hm, hle⟩ := ih hmem
        exact ⟨min x m, by simp [listMin, hm], le_trans (min_le_right x m) hle⟩

lemma listMax_spans {l : List ℚ} {v : ℚ} (hv : v ∈ l) :
    ∃ m, listMax l = some m ∧ v ≤ m := by
  induction l with
  | nil => cases hv
  | cons x xs ih =>
      rcases List.mem_cons.mp hv with rfl | hmem
      · rcases hx : listMax xs with _ | m
        · exact ⟨v, by simp [listMax, hx], le_refl v⟩
        · exact ⟨max v m, by simp [listMax, hx], le_max_left v m⟩
      · obtain ⟨m, hm, hle⟩ := ih hmem
        exact ⟨max x m, by simp [listMax, hm], le_trans hle (le_max_right x m)⟩

lemma exactRowPred_beds {b ba sq : Cell} {s : Subject}
    (h : exactRowPred b ba sq s = true) : similarRowPred b s = true := by
  simp only [exactRowPred, Bool.and_eq_true] at h
  simp only [similarRowPred]
  tauto

/-- C1: for a comparison result with at least one non-missing median
and a numeric subject price, `get_decision` returns `BUY` when the
count of valid medians strictly above the subject price reaches the
number of valid medians, else `PASS` when that count is at most 1,
else `INVESTIGATE`. -/
theorem decision_threshold_rule (n e s : Option ℚ) (q : ℚ)
    (hval : [n, e, s].filterMap id ≠ []) :
    decisionFrom ⟨n, e, s, .num q⟩ =
      .ok (if ([n, e, s].filterMap id).countP (fun c => decide (c > q)) ≥
              ([n, e, s].filterMap id).length then "BUY"
           else if ([n, e, s].filterMap id).countP (fun c => decide (c > q)) ≤ 1 then "PASS"
           else "INVESTIGATE") := by
  unfold decisionFrom
  simp only [countHigher_num, exceptBind_ok]
  rw [if_neg (by simpa [List.isEmpty_iff] using hval)]
  split_ifs <;> rfl

/-- C1 witness: two valid medians, one above the subject price. -/
theorem decision_threshold_rule_witness :
    ([some 10, some 20, none].filterMap id ≠ ([] : List ℚ)) ∧
    decisionFrom ⟨some 10, some 20, none, .num 15⟩ = .ok "PASS" :=
  ⟨by decide, by rw [decision_threshold_rule _ _ _ _ (by decide)]; rfl⟩

/-- C2 counterexample: on the five-sale scenario the neighborhood
median is 320000 as claimed, but the decision is `BUY` via the
`higher >= n` branch (1 valid comparison, 1 above), not `PASS`. -/
theorem scenario_five_sales_counterexample :
    get_neighborhood_median scenarioInput = .ok (some 320000) ∧
    get_decision scenarioInput = .ok "BUY" ∧
    get_decision scenarioInput ≠ .ok "PASS" :=
  ⟨rfl, rfl, by
    intro h
    have hb : get_decision scenarioInput = Except.ok "BUY" := rfl
    rw [hb] at h
    exact absurd (Except.ok.inj h) (by decide)⟩

/-- C2 amended: on the five-sale scenario the neighborhood median is
320000 and `get_decision` returns `BUY`, because the single valid
comparison exceeds the subject price, so `higher = n = 1` and the
`higher >= n` branch fires before `higher <= 1` is reached. -/
theorem scenario_five_sales_amended :
    get_neighborhood_median scenarioInput = .ok (some 320000) ∧
    get_decision scenarioInput = .ok "BUY" :=
  ⟨rfl, rfl⟩

/-- C3: whenever the computed comparison results carry three missing
medians, `get_decision` succeeds with `INVESTIGATE` rather than
raising. -/
theorem all_missing_investigate (a : AnalyzerInput) (r : ComparisonResults)
    (hok : get_comparison_results a = .ok r)
    (h1 : r.neighborhood_median = none) (h2 : r.exact_models_median = none)
    (h3 : r.similar_models_median = none) :
    get_decision a = .ok "INVESTIGATE" := by
  obtain ⟨n, e, s, p⟩ := r
  simp only at h1 h2 h3
  subst h1; subst h2; subst h3
  unfold get_decision
  rw [hok]
  rfl

/-- C3 witness: a dataset whose one price fails to parse and whose
rows match neither tier. -/
theorem all_missing_investigate_witness :
    get_decision allMissingInput = .ok "INVESTIGATE" :=
  all_missing_investigate allMissingInput ⟨none, none, none, .num 100⟩ rfl rfl rfl rfl

/-- C4: the neighborhood median is the order-statistic median of the
valid normalized prices: against any sorted permutation of them it is
missing exactly when there are none, the middle value for an odd
count, and the average of the two middle values for an even count. -/
theorem neighborhood_median_order_statistic (col : List Cell) (v : List ℚ)
    (hperm : v.Perm ((priceClean col).filterMap id))
    (hsort : v.Sorted (· ≤ ·)) :
    (v = [] → neighborhoodMedianCore (priceClean col) = none) ∧
    (v ≠ [] → neighborhoodMedianCore (priceClean col) =
      some (if v.length % 2 = 1 then v.getD (v.length / 2) 0
            else (v.getD (v.length / 2 - 1) 0 + v.getD (v.length / 2) 0) / 2)) := by
  have hv : ((priceClean col).filterMap id).insertionSort (· ≤ ·) = v :=
    List.eq_of_perm_of_sorted ((List.perm_insertionSort _ _).trans hperm.symm)
      (List.sorted_insertionSort _ _) hsort
  constructor
  · intro h0
    subst h0
    simp [neighborhoodMedianCore, seriesMedian, hv, medianOfSorted]
  · intro hne
    have hlen : v.length ≠ 0 := by simpa [List.length_eq_zero] using hne
    simp only [neighborhoodMedianCore, seriesMedian, hv, medianOfSorted, if_neg hlen]
    split_ifs <;> rfl

/-- C4 witness: a text price column with one unparseable entry and an
even number of valid prices, whose median averages the two middle
values. -/
theorem neighborhood_median_order_statistic_witness :
    ([(1 : ℚ), 2, 3, 4].Perm
       ((priceClean [.num 4, .str "N/A", .num 1, .num 3, .num 2]).filterMap id)) ∧
    ([(1 : ℚ), 2, 3, 4].Sorted (· ≤ ·)) ∧
    ([(1 : ℚ), 2, 3, 4] ≠ []) ∧
    neighborhoodMedianCore (priceClean [.num 4, .str "N/A", .num 1, .num 3, .num 2]) =
      some ((2 + 3) / 2) := by
  have hperm : [(1 : ℚ), 2, 3, 4].Perm
      ((priceClean [.num 4, .str "N/A", .num 1, .num 3, .num 2]).filterMap id) := by decide
  have hsort : [(1 : ℚ), 2, 3, 4].Sorted (· ≤ ·) := by
    simp only [List.sorted_cons, List.mem_cons, List.mem_singleton]
    norm_num
  refine ⟨hperm, hsort, by decide, ?_⟩
  rw [(neighborhood_median_order_statistic _ _ hperm hsort).2 (by decide)]
  norm_num

/-- C5: price normalization on a text column strips the currency
symbol and thousands separators and parses the rest as a decimal
number; an unparseable entry becomes missing rather than an error. -/
theorem price_normalization_strip_parse :
    priceClean [.str "$350,000", .str "N/A"] = [some 350000, none] := by decide

/-- C6: a row is in the exact tier exactly when its beds and baths
coerce to the subject's and its sqft coerces to within 5 of the
subject's, bound inclusive; rows failing coercion are excluded, row
sqft 1505 against subject sqft 1500 is included and 1506 is not. -/
theorem exact_tier_membership :
    (∀ (b ba sq : Cell) (s : Subject),
       exactRowPred b ba sq s = true ↔
         ((∃ qb, toNumericCell b = some qb ∧ qb = s.beds) ∧
          (∃ qa, toNumericCell ba = some qa ∧ qa = s.baths) ∧
          (∃ qs, toNumericCell sq = some qs ∧ |qs - s.sqft| ≤ 5))) ∧
    exactRowPred (.num 3) (.num 2) (.num 1505) ⟨3, 2, 1500, .nan⟩ = true ∧
    exactRowPred (.num 3) (.num 2) (.num 1506) ⟨3, 2, 1500, .nan⟩ = false := by
  refine ⟨?_, ?_, ?_⟩
  · intro b ba sq s
    rcases hb : toNumericCell b with _ | qb <;>
      rcases hba : toNumericCell ba with _ | qa <;>
        rcases hsq : toNumericCell sq with _ | qs <;>
          simp [exactRowPred, cellEq, cellNear, hb, hba, hsq, and_assoc]
  · norm_num [exactRowPred, cellEq, cellNear, toNumericCell, Bool.and_eq_true]
  · norm_num [exactRowPred, cellEq, cellNear, toNumericCell, Bool.and_eq_true]

/-- C7: any row index set in the exact-match mask is also set in the
similar-match mask, so the exact tier's rows are contained in the
similar tier's rows. -/
theorem exact_rows_subset_similar (beds baths sqft : List Cell) (s : Subject) (i : ℕ)
    (h : (exactMask beds baths sqft s).getD i false = true) :
    (similarMask beds s).getD i false = true := by
  induction beds generalizing baths sqft i with
  | nil =>
      cases baths <;> cases sqft <;> simp [exactMask, zipWith3C] at h
  | cons b bs ih =>
      cases baths with
      | nil => cases sqft <;> simp [exactMask, zipWith3C] at h
      | cons c cs =>
          cases sqft with
          | nil => simp [exactMask, zipWith3C] at h
          | cons d ds =>
              cases i with
              | zero =>
                  simp only [exactMask, zipWith3C, List.getD_cons_zero] at h
                  simpa [similarMask, List.getD_cons_zero] using exactRowPred_beds h
              | succ j =>
                  have hj := ih cs ds j (by simpa [exactMask, zipWith3C] using h)
                  simpa [similarMask, List.getD_cons_succ] using hj

/-- C7 witness: a two-row dataset whose second row is an exact match. -/
theorem exact_rows_subset_similar_witness :
    ((exactMask [.num 0, .num 3] [.num 0, .num 2] [.num 0, .num 1500]
        ⟨3, 2, 1500, .nan⟩).getD 1 false = true) ∧
    ((similarMask [.num 0, .num 3] ⟨3, 2, 1500, .nan⟩).getD 1 false = true) := by
  have hx : (exactMask [.num 0, .num 3] [.num 0, .num 2] [.num 0, .num 1500]
      ⟨3, 2, 1500, .nan⟩).getD 1 false = true := by
    norm_num [exactMask, zipWith3C, exactRowPred, cellEq, cellNear, toNumericCell]
  exact ⟨hx, exact_rows_subset_similar _ _ _ _ 1 hx⟩

lemma plot_ok_spec (price : List (Option ℚ)) (r : ComparisonResults) (q : ℚ)
    (hq : r.subject_price = .num q) (c : ChartSpec)
    (hok : plot_comparison_chart price r = .ok c) :
    c.histogram_x = price ∧
    c.vlines.map (·.x) =
      [some q, r.neighborhood_median, r.similar_models_median,
       r.exact_models_median].filterMap id := by
  rw [plot_comparison_chart, hq] at hok
  simp only [cellRefVal, exceptBind_ok, List.filterMap_cons, Option.map_some] at hok
  rw [if_neg (by simp)] at hok
  obtain rfl := (Except.ok.inj hok).symm
  refine ⟨rfl, ?_⟩
  rcases r.neighborhood_median with _ | nv <;>
    rcases r.similar_models_median with _ | sv <;>
      rcases r.exact_models_median with _ | ev <;> simp

/-- C8: on a successfully built chart for a numeric subject price, the
plotted x-range (the renderer autorange over the drawn histogram
values and reference lines, the figure setting no explicit range)
spans every non-missing reference value, so no reference line lies
outside it. -/
theorem chart_range_spans_references (price : List (Option ℚ)) (r : ComparisonResults)
    (q : ℚ) (hq : r.subject_price = .num q) (c : ChartSpec)
    (hok : plot_comparison_chart price r = .ok c) (v : ℚ)
    (hv : v ∈ [some q, r.neighborhood_median, r.similar_models_median,
               r.exact_models_median].filterMap id) :
    ∃ lo hi, c.plottedLo = some lo ∧ c.plottedHi = some hi ∧ lo ≤ v ∧ v ≤ hi := by
  have hmem : v ∈ c.plottedXs := by
    rw [ChartSpec.plottedXs]
    refine List.mem_append_right _ ?_
    rw [(plot_ok_spec price r q hq c hok).2]
    exact hv
  obtain ⟨lo, hlo, hle⟩ := listMin_spans hmem
  obtain ⟨hi, hhi, hge⟩ := listMax_spans hmem
  exact ⟨lo, hi, hlo, hhi, hle, hge⟩

/-- C8 witness: one histogram value, a numeric subject price and one
non-missing median; the neighborhood median line at 150 lies inside
the autorange. -/
theorem chart_range_spans_references_witness :
    (⟨some 150, none, none, Cell.num 120⟩ : ComparisonResults).subject_price = Cell.num 120 ∧
    plot_comparison_chart [some 100] ⟨some 150, none, none, .num 120⟩ =
      .ok ⟨[some 100], 30, [⟨"Subject Price", 120, "#FF4B4B"⟩,
                            ⟨"Neighborhood Median", 150, "#00CED1"⟩]⟩ ∧
    (150 : ℚ) ∈ ([some 120, some 150, none, none].filterMap id) ∧
    ∃ lo hi,
      ChartSpec.plottedLo ⟨[some 100], 30, [⟨"Subject Price", 120, "#FF4B4B"⟩,
                            ⟨"Neighborhood Median", 150, "#00CED1"⟩]⟩ = some lo ∧
      ChartSpec.plottedHi ⟨[some 100], 30, [⟨"Subject Price", 120, "#FF4B4B"⟩,
                            ⟨"Neighborhood Median", 150, "#00CED1"⟩]⟩ = some hi ∧
      lo ≤ 150 ∧ (150 : ℚ) ≤ hi :=
  ⟨rfl, rfl, by decide,
   chart_range_spans_references [some 100] ⟨some 150, none, none, .num 120⟩ 120 rfl
     _ rfl 150 (by decide)⟩

/-- C9: the `subject_price` field of a successful
`get_comparison_results` is the caller's subject price verbatim, with
no normalization applied. -/
theorem subject_price_passthrough (a : AnalyzerInput) (r : ComparisonResults)
    (hok : get_comparison_results a = .ok r) :
    r.subject_price = a.subject.price := by
  unfold get_comparison_results at hok
  rcases h1 : get_neighborhood_median a with e1 | n
  · rw [h1, exceptBind_err] at hok; simp at hok
  · rw [h1, exceptBind_ok] at hok
    rcases h2 : get_exact_models_median a with e2 | e
    · rw [h2, exceptBind_err] at hok; simp at hok
    · rw [h2, exceptBind_ok] at hok
      rcases h3 : get_similar_models_median a with e3 | s
      · rw [h3, exceptBind_err] at hok; simp at hok
      · rw [h3, exceptBind_ok] at hok
        obtain rfl := (Except.ok.inj hok)
        rfl

/-- C9 witness: a normalized text price column next to a raw string
subject price that reaches the result unchanged. -/
theorem subject_price_passthrough_witness :
    get_comparison_results rawSubjectInput = .ok ⟨some 2, none, none, .str "$5"⟩ ∧
    (⟨some 2, none, none, Cell.str "$5"⟩ : ComparisonResults).subject_price =
      rawSubjectInput.subject.price :=
  ⟨rfl, subject_price_passthrough rawSubjectInput ⟨some 2, none, none, .str "$5"⟩ rfl⟩

/-- C10: with the price mapping present and resolvable but any of the
beds, baths or sqft mappings absent, `get_comparison_results` and
`get_decision` both fail with that mapping's key-lookup error. -/
theorem missing_mapping_key_error (a : AnalyzerInput) (prices : List (Option ℚ))
    (hpd : process_data a = .ok prices)
    (hmiss : headerKey a.headers "beds" = .error (.keyError "beds") ∨
             headerKey a.headers "baths" = .error (.keyError "baths") ∨
             headerKey a.headers "sqft" = .error (.keyError "sqft")) :
    ∃ k, (k = "beds" ∨ k = "baths" ∨ k = "sqft") ∧
      get_comparison_results a = .error (.keyError k) ∧
      get_decision a = .error (.keyError k) := by
  have hn : get_neighborhood_median a = .ok (neighborhoodMedianCore prices) := by
    unfold get_neighborhood_median
    rw [hpd, exceptBind_ok]
    rfl
  have mk : ∀ k : String, get_exact_models_median a = .error (.keyError k) →
      get_comparison_results a = .error (.keyError k) ∧
      get_decision a = .error (.keyError k) := by
    intro k hex
    have hcomp : get_comparison_results a = .error (.keyError k) := by
      unfold get_comparison_results
      rw [hn, exceptBind_ok, hex, exceptBind_err]
    refine ⟨hcomp, ?_⟩
    unfold get_decision
    rw [hcomp, exceptBind_err]
  rcases hbeds : headerKey a.headers "beds" with eb | bc
  · obtain rfl := headerKey_error hbeds
    have hex : get_exact_models_median a = .error (.keyError "beds") := by
      unfold get_exact_models_median
      rw [hpd, exceptBind_ok, hbeds, exceptBind_err]
    exact ⟨"beds", Or.inl rfl, mk "beds" hex⟩
  · rcases hbaths : headerKey a.headers "baths" with e2 | bac
    · obtain rfl := headerKey_error hbaths
      have hex : get_exact_models_median a = .error (.keyError "baths") := by
        unfold get_exact_models_median
        rw [hpd, exceptBind_ok, hbeds, exceptBind_ok, hbaths, exceptBind_err]
      exact ⟨"baths", Or.inr (Or.inl rfl), mk "baths" hex⟩
    · rcases hsqft : headerKey a.headers "sqft" with e3 | sc
      · obtain rfl := headerKey_error hsqft
        have hex : get_exact_models_median a = .error (.keyError "sqft") := by
          unfold get_exact_models_median
          rw [hpd, exceptBind_ok, hbeds, exceptBind_ok, hbaths, exceptBind_ok,
            hsqft, exceptBind_err]
        exact ⟨"sqft", Or.inr (Or.inr rfl), mk "sqft" hex⟩
      · rcases hmiss with h | h | h
        · rw [hbeds] at h; exact absurd h (by simp)
        · rw [hbaths] at h; exact absurd h (by simp)
        · rw [hsqft] at h; exact absurd h (by simp)

/-- C10 witness: a mapping carrying only the price entry. -/
theorem missing_mapping_key_error_witness :
    ∃ k, (k = "beds" ∨ k = "baths" ∨ k = "sqft") ∧
      get_comparison_results priceOnlyInput = .error (.keyError k) ∧
      get_decision priceOnlyInput = .error (.keyError k) :=
  missing_mapping_key_error priceOnlyInput [some 1] rfl (Or.inl rfl)
